import Mathlib

/-!
# Verification of the salty PAM authentication module (`salt/auth/pam.py`)

Shallow embedding of the module's three layers:

* the conversation callback `my_conv` (worker side, invoked by the native
  PAM stack during a transaction);
* the native bridge `_authenticate` together with the worker entry point
  (`__main__` block), where the native PAM library calls (`pam_start`,
  `pam_authenticate`, `pam_acct_mgmt`) are modelled as oracle return
  values and the `pam_end` calls are recorded in a trace;
* the public entry point `authenticate` (submitter side), where the
  filesystem, configuration and the spawned subprocess are modelled as an
  explicit `World` record, and the spawn calls together with the error
  logs are recorded in the outcome.
-/

namespace SaltPam

/-- PAM message-style constants, verbatim from the module. -/
def PAM_PROMPT_ECHO_OFF : Int := 1

def PAM_PROMPT_ECHO_ON : Int := 2

def PAM_ERROR_MSG : Int := 3

def PAM_TEXT_INFO : Int := 4

/-- One entry of the response array handed back to the PAM stack:
`resp` is the (possibly NULL) response string, `resp_retcode` its status.
`resp = none` models the NULL pointer a `calloc`-zeroed slot holds. -/
structure PamResponse where
  resp : Option String
  resp_retcode : Int
deriving DecidableEq, Repr

/-- The `calloc`-zeroed default slot: NULL response, status 0. -/
def PamResponse.default : PamResponse := { resp := none, resp_retcode := 0 }

/-- The loop body of `my_conv`: walk the indices `0 .. n_messages - 1` and,
for each message whose style is `PAM_PROMPT_ECHO_OFF`, overwrite that slot of
the response array with a copy of the password and status 0. -/
def my_conv_fill (password : String) (styles : List Int)
    (resp : List PamResponse) : List PamResponse :=
  (List.range styles.length).foldl
    (fun acc i =>
      if styles.getD i 0 = PAM_PROMPT_ECHO_OFF then
        acc.set i { resp := some password, resp_retcode := 0 }
      else acc)
    resp

/-- The conversation callback `my_conv`.  It receives the prompt styles of
one round, `calloc`s an array of `n_messages` zeroed response slots, fills
the mask-input slots with the password, and returns the array together with
its own return status (always 0). -/
def my_conv (password : String) (styles : List Int) :
    List PamResponse × Int :=
  let addr := List.replicate styles.length PamResponse.default
  (my_conv_fill password styles addr, 0)

/-- Return values of the three native PAM calls made by `_authenticate`,
modelled as oracle values: `startRet` for `PAM_START`, `authRet` for
`PAM_AUTHENTICATE`, `acctRet` for `PAM_ACCT_MGMT`. -/
structure PamOracle where
  startRet : Int
  authRet : Int
  acctRet : Int
deriving DecidableEq, Repr

/-- Outcome of `_authenticate`: the boolean it returns, and the trace of
status arguments passed to `PAM_END` (one entry per `PAM_END` call, in
order). -/
structure NativeOutcome where
  result : Bool
  endCalls : List Int
deriving DecidableEq, Repr

/-- The native bridge `_authenticate`, with the PAM library calls replaced
by the oracle `o`.  Mirrors the source line by line: start the transaction;
on nonzero start status, end with that status and return `False`; otherwise
run `PAM_AUTHENTICATE`, on success `PAM_ACCT_MGMT`, then unconditionally
`PAM_END(handle, 0)` and return whether the last status was 0. -/
def _authenticate (o : PamOracle) : NativeOutcome :=
  let retval := o.startRet
  if retval ≠ 0 then
    { result := false, endCalls := [retval] }
  else
    let retval := o.authRet
    let retval := if retval = 0 then o.acctRet else retval
    { result := retval = 0, endCalls := [0] }

/-- The worker entry point (the module's `__main__` block): run
`_authenticate` on the environment-carried credentials and exit with code 0
on `True`, code 1 otherwise. -/
def worker_main (o : PamOracle) : Int :=
  if (_authenticate o).result then 0 else 1

/-- Update one variable of an environment mapping (assignment into a
`dict`): the new binding shadows any previous binding of the same key. -/
def envSet (env : List (String × String)) (k v : String) :
    List (String × String) :=
  (k, v) :: env.filter (fun p => p.1 ≠ k)

/-- Look a variable up in an environment mapping. -/
def envGet (env : List (String × String)) (k : String) : Option String :=
  (env.find? (fun p => p.1 = k)).map (fun p => p.2)

/-- The world the submitter `authenticate` runs in: configuration
(`__opts__`), filesystem and interpreter facts, the parent process
environment, and the exit code the spawned worker would return. -/
structure World where
  /-- `__opts__.get "auth.pam.python"`. -/
  optsPamPython : Option String
  /-- `__opts__.get "auth.pam.service"` (no default applied here). -/
  optsPamService : Option String
  /-- `__salt_system_encoding__`. -/
  systemEncoding : String
  /-- whether `/usr/bin/python3` exists (`os.path.exists`). -/
  python3Exists : Bool
  /-- `sys.executable`. -/
  sysExecutable : String
  /-- `pathlib.Path(p).resolve()` as a pure path-rewriting function. -/
  resolve : String → String
  /-- `pathlib.Path(p).exists()` for resolved paths. -/
  pathExists : String → Bool
  /-- `__file__`, the module's own file path. -/
  moduleFile : String
  /-- `os.environ`, the parent process environment. -/
  environ : List (String × String)
  /-- exit code of the spawned worker (`ret.returncode`). -/
  runExit : Int

/-- One recorded `subprocess.run` call: the argument list and the
environment handed to the child. -/
structure SpawnCall where
  argv : List String
  env : List (String × String)
deriving DecidableEq, Repr

/-- Outcome of the submitter `authenticate`: its boolean result, the trace
of spawned subprocesses, the number of error-level log records emitted, and
the parent process environment after the call returns. -/
structure SubmitterOutcome where
  result : Bool
  spawns : List SpawnCall
  errorLogCount : Nat
  environAfter : List (String × String)
deriving DecidableEq, Repr

/-- The inner helper `__find_pyexe`: the `auth.pam.python` override when it
is set to a truthy (non-empty) value, else `/usr/bin/python3` when that
path exists, else the running interpreter `sys.executable`. -/
def __find_pyexe (w : World) : String :=
  match w.optsPamPython with
  | some s =>
      if s ≠ "" then s
      else if w.python3Exists then "/usr/bin/python3" else w.sysExecutable
  | none =>
      if w.python3Exists then "/usr/bin/python3" else w.sysExecutable

/-- The public entry point `authenticate`.  It copies `os.environ`, writes
the four credential variables into the copy only, resolves the interpreter
and module paths, fails fast (with an error log and no spawn) when the
interpreter path does not exist, and otherwise spawns the worker once and
maps exit code 0 to `True` and anything else to `False` plus an error log.
The parent environment is returned unchanged in `environAfter`, mirroring
that the source never writes to `os.environ` itself. -/
def authenticate (w : World) (username password : String) :
    SubmitterOutcome :=
  let env := w.environ
  let env := envSet env "SALT_PAM_USERNAME" username
  let env := envSet env "SALT_PAM_PASSWORD" password
  let env := envSet env "SALT_PAM_SERVICE" (w.optsPamService.getD "login")
  let env := envSet env "SALT_PAM_ENCODING" w.systemEncoding
  let pyexe := w.resolve (__find_pyexe w)
  let pyfile := w.resolve w.moduleFile
  if ¬ w.pathExists pyexe then
    { result := false, spawns := [], errorLogCount := 1,
      environAfter := w.environ }
  else
    let call : SpawnCall := { argv := [pyexe, pyfile], env := env }
    if w.runExit = 0 then
      { result := true, spawns := [call], errorLogCount := 0,
        environAfter := w.environ }
    else
      { result := false, spawns := [call], errorLogCount := 1,
        environAfter := w.environ }

/-- A concrete world used to instantiate the universally quantified
theorems below on explicit inputs. -/
def testWorld : World :=
  { optsPamPython := none
    optsPamService := none
    systemEncoding := "utf-8"
    python3Exists := true
    sysExecutable := "/venv/bin/python"
    resolve := fun s => s
    pathExists := fun _ => true
    moduleFile := "/salt/auth/pam.py"
    environ := [("HOME", "/root")]
    runExit := 0 }

/-! ## Characterisation of the conversation callback -/

/-- The response-filling fold preserves the length of the response array,
for any number of processed indices. -/
lemma fill_foldl_length (pw : String) (styles : List Int) :
    ∀ (n : Nat) (resp : List PamResponse),
      ((List.range n).foldl
        (fun acc i =>
          if styles.getD i 0 = PAM_PROMPT_ECHO_OFF then
            acc.set i { resp := some pw, resp_retcode := 0 }
          else acc)
        resp).length = resp.length := by
  intro n
  induction n with
  | zero => intro resp; simp
  | succ n ih =>
      intro resp
      rw [List.range_succ, List.foldl_append]
      simp only [List.foldl_cons, List.foldl_nil]
      split
      · rw [List.length_set, ih]
      · exact ih resp

/-- Pointwise characterisation of the response-filling fold: slot `j` holds
the password response exactly when `j` is among the processed indices, its
style is `PAM_PROMPT_ECHO_OFF` and `j` is in range; every other slot keeps
its previous content. -/
lemma fill_foldl_getElem (pw : String) (styles : List Int) :
    ∀ (n : Nat) (resp : List PamResponse) (j : Nat),
      ((List.range n).foldl
        (fun acc i =>
          if styles.getD i 0 = PAM_PROMPT_ECHO_OFF then
            acc.set i { resp := some pw, resp_retcode := 0 }
          else acc)
        resp)[j]? =
      if j < n ∧ styles.getD j 0 = PAM_PROMPT_ECHO_OFF ∧ j < resp.length
      then some { resp := some pw, resp_retcode := 0 }
      else resp[j]? := by
  intro n
  induction n with
  | zero =>
      intro resp j
      simp
  | succ n ih =>
      intro resp j
      rw [List.range_succ, List.foldl_append]
      simp only [List.foldl_cons, List.foldl_nil]
      by_cases hs : styles.getD n 0 = PAM_PROMPT_ECHO_OFF
      · rw [if_pos hs, List.getElem?_set, fill_foldl_length, ih]
        by_cases hnj : n = j
        · subst hnj
          rw [if_pos rfl]
          by_cases hlen : n < resp.length
          · rw [if_pos hlen, if_pos ⟨Nat.lt_succ_self n, hs, hlen⟩]
          · rw [if_neg hlen, if_neg (fun hc => hlen hc.2.2),
              List.getElem?_eq_none (Nat.le_of_not_lt hlen)]
        · rw [if_neg hnj]
          have hiff : j < n + 1 ↔ j < n := by omega
          simp only [hiff]
      · rw [if_neg hs, ih]
        by_cases hnj : n = j
        · subst hnj
          rw [if_neg (fun hc => hs hc.2.1), if_neg (fun hc => hs hc.2.1)]
        · have hiff : j < n + 1 ↔ j < n := by omega
          simp only [hiff]

/-- Length of the response array produced by `my_conv`. -/
lemma my_conv_length (pw : String) (styles : List Int) :
    ((my_conv pw styles).1).length = styles.length := by
  simp only [my_conv, my_conv_fill]
  rw [fill_foldl_length, List.length_replicate]

/-- Pointwise characterisation of the response array produced by
`my_conv`: inside the round, mask-input slots hold the password with status
0 and every other slot holds the `calloc` default. -/
lemma my_conv_getElem (pw : String) (styles : List Int) (j : Nat) :
    ((my_conv pw styles).1)[j]? =
    if j < styles.length then
      some (if styles.getD j 0 = PAM_PROMPT_ECHO_OFF
            then { resp := some pw, resp_retcode := 0 }
            else PamResponse.default)
    else none := by
  simp only [my_conv, my_conv_fill]
  rw [fill_foldl_getElem]
  simp only [List.length_replicate]
  by_cases hj : j < styles.length
  · by_cases hs : styles.getD j 0 = PAM_PROMPT_ECHO_OFF
    · rw [if_pos ⟨hj, hs, hj⟩, if_pos hj, if_pos hs]
    · rw [if_neg (fun hc => hs hc.2.1), if_pos hj, if_neg hs,
        List.getElem?_replicate, if_pos hj]
  · rw [if_neg (fun hc => hj hc.1), if_neg hj,
      List.getElem?_replicate, if_neg hj]

/-! ## Environment-lookup lemmas -/

/-- Looking up the key just written by `envSet` yields the written value. -/
lemma envGet_envSet_self (e : List (String × String)) (k v : String) :
    envGet (envSet e k v) k = some v := by
  simp [envGet, envSet, List.find?]

/-- `List.find?` for key `k'` ignores entries whose key is some other
`k`, so filtering those entries out does not change the result. -/
lemma find?_filter_ne (k k' : String) (h : k' ≠ k) :
    ∀ l : List (String × String),
      List.find? (fun p => p.1 = k')
          (l.filter (fun p => p.1 ≠ k)) =
        List.find? (fun p => p.1 = k') l := by
  intro l
  induction l with
  | nil => simp
  | cons a t ih =>
      by_cases hak : a.1 = k
      · have hak' : ¬ (a.1 = k') := by rw [hak]; exact fun hh => h hh.symm
        rw [List.filter_cons_of_neg (by simpa using hak),
          List.find?_cons_of_neg t (by simpa using hak'), ih]
      · rw [List.filter_cons_of_pos (by simpa using hak)]
        by_cases hak' : a.1 = k'
        · rw [List.find?_cons_of_pos _ (by simpa using hak'),
            List.find?_cons_of_pos t (by simpa using hak')]
        · rw [List.find?_cons_of_neg _ (by simpa using hak'),
            List.find?_cons_of_neg t (by simpa using hak'), ih]

/-- Looking up a different key than the one written by `envSet` falls
through to the previous environment. -/
lemma envGet_envSet_ne (e : List (String × String)) (k v k' : String)
    (h : k' ≠ k) : envGet (envSet e k v) k' = envGet e k' := by
  simp only [envGet, envSet]
  rw [List.find?_cons_of_neg _ (by simpa using fun hh => h hh.symm),
    find?_filter_ne k k' h]

/-! ## Helper lemmas about the submitter -/

/-- `authenticate` leaves the parent process environment unchanged on
every control path. -/
lemma authenticate_environAfter (w : World) (u p : String) :
    (authenticate w u p).environAfter = w.environ := by
  simp only [authenticate]
  split
  · rfl
  · split <;> rfl

/-- Every spawn recorded by `authenticate` has the fixed two-element
argument list (interpreter path, module path) and carries the credential
environment built from the four `envSet` writes on a copy of the parent
environment. -/
lemma authenticate_spawn_mem (w : World) (u p : String) (c : SpawnCall)
    (hc : c ∈ (authenticate w u p).spawns) :
    c.argv = [w.resolve (__find_pyexe w), w.resolve w.moduleFile] ∧
    c.env = envSet (envSet (envSet (envSet w.environ
      "SALT_PAM_USERNAME" u) "SALT_PAM_PASSWORD" p)
      "SALT_PAM_SERVICE" (w.optsPamService.getD "login"))
      "SALT_PAM_ENCODING" w.systemEncoding := by
  simp only [authenticate] at hc
  split at hc
  · simp at hc
  · split at hc
    · simp only [List.mem_singleton] at hc
      subst hc
      exact ⟨rfl, rfl⟩
    · simp only [List.mem_singleton] at hc
      subst hc
      exact ⟨rfl, rfl⟩

/-- The argument lists of the spawns recorded by `authenticate` do not
depend on the credentials at all. -/
lemma authenticate_argv (w : World) (u p : String) :
    (authenticate w u p).spawns.map SpawnCall.argv =
      if w.pathExists (w.resolve (__find_pyexe w)) = true then
        [[w.resolve (__find_pyexe w), w.resolve w.moduleFile]]
      else [] := by
  simp only [authenticate]
  split
  · rfl
  · next h =>
      rw [if_pos (not_not.mp h)]
      split <;> rfl

/-- Looking the four credential variables up in the environment built by
the four `envSet` writes of `authenticate` yields exactly the written
values. -/
lemma cred_env_lookup (e : List (String × String)) (u p s enc : String) :
    envGet (envSet (envSet (envSet (envSet e "SALT_PAM_USERNAME" u)
        "SALT_PAM_PASSWORD" p) "SALT_PAM_SERVICE" s)
        "SALT_PAM_ENCODING" enc) "SALT_PAM_USERNAME" = some u ∧
    envGet (envSet (envSet (envSet (envSet e "SALT_PAM_USERNAME" u)
        "SALT_PAM_PASSWORD" p) "SALT_PAM_SERVICE" s)
        "SALT_PAM_ENCODING" enc) "SALT_PAM_PASSWORD" = some p ∧
    envGet (envSet (envSet (envSet (envSet e "SALT_PAM_USERNAME" u)
        "SALT_PAM_PASSWORD" p) "SALT_PAM_SERVICE" s)
        "SALT_PAM_ENCODING" enc) "SALT_PAM_SERVICE" = some s ∧
    envGet (envSet (envSet (envSet (envSet e "SALT_PAM_USERNAME" u)
        "SALT_PAM_PASSWORD" p) "SALT_PAM_SERVICE" s)
        "SALT_PAM_ENCODING" enc) "SALT_PAM_ENCODING" = some enc := by
  refine ⟨?_, ?_, ?_, ?_⟩
  · rw [envGet_envSet_ne _ "SALT_PAM_ENCODING" enc "SALT_PAM_USERNAME"
      (by decide),
      envGet_envSet_ne _ "SALT_PAM_SERVICE" s "SALT_PAM_USERNAME"
      (by decide),
      envGet_envSet_ne _ "SALT_PAM_PASSWORD" p "SALT_PAM_USERNAME"
      (by decide),
      envGet_envSet_self]
  · rw [envGet_envSet_ne _ "SALT_PAM_ENCODING" enc "SALT_PAM_PASSWORD"
      (by decide),
      envGet_envSet_ne _ "SALT_PAM_SERVICE" s "SALT_PAM_PASSWORD"
      (by decide),
      envGet_envSet_self]
  · rw [envGet_envSet_ne _ "SALT_PAM_ENCODING" enc "SALT_PAM_SERVICE"
      (by decide),
      envGet_envSet_self]
  · rw [envGet_envSet_self]

/-! ## Claim theorems -/

/-- C1: for every invocation of `authenticate` that spawns a worker (the
resolved interpreter path exists), the call returns `True` if and only if
the worker subprocess's exit status is 0; any nonzero status yields
`False`. -/
theorem claim_C1_exit_status_maps_to_result (w : World) (u p : String)
    (h : w.pathExists (w.resolve (__find_pyexe w)) = true) :
    (authenticate w u p).result = true ↔ w.runExit = 0 := by
  by_cases hr : w.runExit = 0 <;> simp [authenticate, h, hr]

theorem claim_C1_witness :
    testWorld.pathExists (testWorld.resolve (__find_pyexe testWorld)) =
      true ∧
    ((authenticate testWorld "alice" "hunter2").result = true ↔
      testWorld.runExit = 0) :=
  ⟨rfl, claim_C1_exit_status_maps_to_result testWorld "alice" "hunter2" rfl⟩

/-- C2: after a successful transaction start, `_authenticate` reports
success exactly when both `PAM_AUTHENTICATE` and `PAM_ACCT_MGMT` return 0,
and the worker process exits with code 0 on success and code 1 in every
other case. -/
theorem claim_C2_worker_success_and_exit (o : PamOracle) :
    (o.startRet = 0 →
      ((_authenticate o).result = true ↔
        o.authRet = 0 ∧ o.acctRet = 0)) ∧
    (worker_main o = 0 ↔ (_authenticate o).result = true) ∧
    ((_authenticate o).result = false → worker_main o = 1) := by
  refine ⟨?_, ?_, ?_⟩
  · intro h
    by_cases ha : o.authRet = 0 <;> simp [_authenticate, h, ha]
  · cases hres : (_authenticate o).result <;> simp [worker_main, hres]
  · intro h
    simp [worker_main, h]

theorem claim_C2_witness :
    (_authenticate { startRet := 0, authRet := 0, acctRet := 0 }).result =
      true ∧
    worker_main { startRet := 0, authRet := 0, acctRet := 0 } = 0 ∧
    worker_main { startRet := 0, authRet := 7, acctRet := 0 } = 1 := by
  have h0 := claim_C2_worker_success_and_exit
    { startRet := 0, authRet := 0, acctRet := 0 }
  have h7 := claim_C2_worker_success_and_exit
    { startRet := 0, authRet := 7, acctRet := 0 }
  refine ⟨(h0.1 rfl).mpr ⟨rfl, rfl⟩, ?_, ?_⟩
  · exact h0.2.1.mpr ((h0.1 rfl).mpr ⟨rfl, rfl⟩)
  · exact h7.2.2 (by decide)

/-- C3: on every exit path of `_authenticate` — start failure,
authentication failure and authentication success — `PAM_END` is invoked
exactly once. -/
theorem claim_C3_pam_end_exactly_once (o : PamOracle) :
    ((_authenticate o).endCalls).length = 1 := by
  simp only [_authenticate]
  split <;> rfl

/-- C4: the status passed to `PAM_END` is the nonzero start status when
`PAM_START` fails (and `False` is then reported), and exactly 0 on every
path after a successful start. -/
theorem claim_C4_pam_end_status (o : PamOracle) :
    (o.startRet ≠ 0 →
      (_authenticate o).endCalls = [o.startRet] ∧
      (_authenticate o).result = false) ∧
    (o.startRet = 0 → (_authenticate o).endCalls = [0]) := by
  constructor
  · intro h
    simp [_authenticate, h]
  · intro h
    simp [_authenticate, h]

theorem claim_C4_witness :
    (_authenticate { startRet := 5, authRet := 0, acctRet := 0 }).endCalls =
      [5] ∧
    (_authenticate { startRet := 0, authRet := 7, acctRet := 3 }).endCalls =
      [0] :=
  ⟨((claim_C4_pam_end_status
      { startRet := 5, authRet := 0, acctRet := 0 }).1 (by decide)).1,
    (claim_C4_pam_end_status
      { startRet := 0, authRet := 7, acctRet := 3 }).2 rfl⟩

/-- C5: for every conversation round the callback allocates a response
array whose length equals the number of prompts, so the response array
length always equals the prompt array length (round sizes 0, 1 and more
included). -/
theorem claim_C5_response_length (pw : String) (styles : List Int) :
    ((my_conv pw styles).1).length = styles.length :=
  my_conv_length pw styles

/-- C6: in every conversation round exactly the mask-input
(`PAM_PROMPT_ECHO_OFF`) slots receive a copy of the password with response
status 0, every other slot keeps the `calloc` default (absent response,
status 0), and the callback itself returns success status 0. -/
theorem claim_C6_mask_slots_only (pw : String) (styles : List Int)
    (j : Nat) (h : j < styles.length) :
    (my_conv pw styles).2 = 0 ∧
    ((my_conv pw styles).1)[j]? =
      some (if styles.getD j 0 = PAM_PROMPT_ECHO_OFF
            then { resp := some pw, resp_retcode := 0 }
            else PamResponse.default) := by
  refine ⟨rfl, ?_⟩
  rw [my_conv_getElem, if_pos h]

theorem claim_C6_witness :
    (my_conv "hunter2"
      [PAM_PROMPT_ECHO_OFF, PAM_PROMPT_ECHO_ON, PAM_ERROR_MSG]).2 = 0 ∧
    ((my_conv "hunter2"
      [PAM_PROMPT_ECHO_OFF, PAM_PROMPT_ECHO_ON, PAM_ERROR_MSG]).1)[0]? =
      some { resp := some "hunter2", resp_retcode := 0 } ∧
    ((my_conv "hunter2"
      [PAM_PROMPT_ECHO_OFF, PAM_PROMPT_ECHO_ON, PAM_ERROR_MSG]).1)[1]? =
      some PamResponse.default := by
  have h0 := claim_C6_mask_slots_only "hunter2"
    [PAM_PROMPT_ECHO_OFF, PAM_PROMPT_ECHO_ON, PAM_ERROR_MSG] 0 (by decide)
  have h1 := claim_C6_mask_slots_only "hunter2"
    [PAM_PROMPT_ECHO_OFF, PAM_PROMPT_ECHO_ON, PAM_ERROR_MSG] 1 (by decide)
  refine ⟨h0.1, ?_, ?_⟩
  · rw [h0.2]
    rfl
  · rw [h1.2]
    rfl

/-- C7: whenever the resolved worker interpreter path does not exist,
`authenticate` returns `False`, logs an error, and records no spawn call
at all. -/
theorem claim_C7_missing_interpreter_fails_fast (w : World)
    (u p : String)
    (h : w.pathExists (w.resolve (__find_pyexe w)) = false) :
    (authenticate w u p).result = false ∧
    (authenticate w u p).spawns = [] ∧
    1 ≤ (authenticate w u p).errorLogCount := by
  simp [authenticate, h]

theorem claim_C7_witness :
    (authenticate { testWorld with pathExists := fun _ => false }
      "alice" "hunter2").result = false ∧
    (authenticate { testWorld with pathExists := fun _ => false }
      "alice" "hunter2").spawns = [] ∧
    1 ≤ (authenticate { testWorld with pathExists := fun _ => false }
      "alice" "hunter2").errorLogCount :=
  claim_C7_missing_interpreter_fails_fast
    { testWorld with pathExists := fun _ => false } "alice" "hunter2" rfl

/-- C8: the argument list handed to the spawned worker is exactly the
interpreter path and the module file path, identical for any two
passwords, and the password travels only in the worker environment under
the fixed variable name `SALT_PAM_PASSWORD`. -/
theorem claim_C8_password_never_in_argv (w : World) (u p q : String) :
    (authenticate w u p).spawns.map SpawnCall.argv =
      (authenticate w u q).spawns.map SpawnCall.argv ∧
    (∀ c ∈ (authenticate w u p).spawns,
      c.argv = [w.resolve (__find_pyexe w), w.resolve w.moduleFile] ∧
      envGet c.env "SALT_PAM_PASSWORD" = some p) := by
  constructor
  · rw [authenticate_argv, authenticate_argv]
  · intro c hc
    obtain ⟨hargv, henv⟩ := authenticate_spawn_mem w u p c hc
    refine ⟨hargv, ?_⟩
    rw [henv]
    exact (cred_env_lookup w.environ u p
      (w.optsPamService.getD "login") w.systemEncoding).2.1

theorem claim_C8_witness :
    (authenticate testWorld "alice" "pw-one").spawns.map SpawnCall.argv =
      (authenticate testWorld "alice" "pw-two").spawns.map
        SpawnCall.argv ∧
    ∃ c ∈ (authenticate testWorld "alice" "pw-one").spawns,
      c.argv = ["/usr/bin/python3", "/salt/auth/pam.py"] ∧
      envGet c.env "SALT_PAM_PASSWORD" = some "pw-one" := by
  have h := claim_C8_password_never_in_argv testWorld "alice"
    "pw-one" "pw-two"
  refine ⟨h.1, ?_⟩
  have hm :
      ({ argv := ["/usr/bin/python3", "/salt/auth/pam.py"],
         env := [("SALT_PAM_ENCODING", "utf-8"),
                 ("SALT_PAM_SERVICE", "login"),
                 ("SALT_PAM_PASSWORD", "pw-one"),
                 ("SALT_PAM_USERNAME", "alice"),
                 ("HOME", "/root")] } : SpawnCall) ∈
        (authenticate testWorld "alice" "pw-one").spawns := by decide
  exact ⟨_, hm, h.2 _ hm⟩

/-- C9: the worker interpreter path resolution order is the
`auth.pam.python` override when set (to a non-empty value), else
`/usr/bin/python3` when it exists, else the running interpreter
`sys.executable`; a set override wins even when the system interpreter
exists. -/
theorem claim_C9_interpreter_precedence (w : World) :
    (∀ s, w.optsPamPython = some s → s ≠ "" → __find_pyexe w = s) ∧
    ((w.optsPamPython = none ∨ w.optsPamPython = some "") →
      (w.python3Exists = true → __find_pyexe w = "/usr/bin/python3") ∧
      (w.python3Exists = false → __find_pyexe w = w.sysExecutable)) := by
  constructor
  · intro s hs hne
    simp [__find_pyexe, hs, hne]
  · intro hcase
    constructor <;> intro hp <;> rcases hcase with hc | hc <;>
      simp [__find_pyexe, hc, hp]

theorem claim_C9_witness :
    __find_pyexe { testWorld with optsPamPython := some "/opt/py" } =
      "/opt/py" ∧
    ({ testWorld with
        optsPamPython := some "/opt/py" } : World).python3Exists = true ∧
    __find_pyexe testWorld = "/usr/bin/python3" ∧
    __find_pyexe { testWorld with python3Exists := false } =
      testWorld.sysExecutable := by
  refine ⟨?_, rfl, ?_, ?_⟩
  · exact (claim_C9_interpreter_precedence
      { testWorld with optsPamPython := some "/opt/py" }).1
      "/opt/py" rfl (by decide)
  · exact ((claim_C9_interpreter_precedence testWorld).2
      (Or.inl rfl)).1 rfl
  · exact ((claim_C9_interpreter_precedence
      { testWorld with python3Exists := false }).2 (Or.inl rfl)).2 rfl

/-- C10: `authenticate` never mutates the calling process's environment —
the four credential variables are written only into the copy handed to the
spawned worker, and the parent environment is unchanged afterwards. -/
theorem claim_C10_parent_environment_unchanged (w : World)
    (u p : String) :
    (authenticate w u p).environAfter = w.environ ∧
    ∀ c ∈ (authenticate w u p).spawns,
      envGet c.env "SALT_PAM_USERNAME" = some u ∧
      envGet c.env "SALT_PAM_PASSWORD" = some p ∧
      envGet c.env "SALT_PAM_SERVICE" =
        some (w.optsPamService.getD "login") ∧
      envGet c.env "SALT_PAM_ENCODING" = some w.systemEncoding := by
  refine ⟨authenticate_environAfter w u p, ?_⟩
  intro c hc
  obtain ⟨hargv, henv⟩ := authenticate_spawn_mem w u p c hc
  rw [henv]
  exact cred_env_lookup w.environ u p
    (w.optsPamService.getD "login") w.systemEncoding

theorem claim_C10_witness :
    (authenticate testWorld "alice" "hunter2").environAfter =
      testWorld.environ ∧
    ∃ c ∈ (authenticate testWorld "alice" "hunter2").spawns,
      envGet c.env "SALT_PAM_PASSWORD" = some "hunter2" := by
  have h := claim_C10_parent_environment_unchanged testWorld
    "alice" "hunter2"
  refine ⟨h.1, ?_⟩
  have hm :
      ({ argv := ["/usr/bin/python3", "/salt/auth/pam.py"],
         env := [("SALT_PAM_ENCODING", "utf-8"),
                 ("SALT_PAM_SERVICE", "login"),
                 ("SALT_PAM_PASSWORD", "hunter2"),
                 ("SALT_PAM_USERNAME", "alice"),
                 ("HOME", "/root")] } : SpawnCall) ∈
        (authenticate testWorld "alice" "hunter2").spawns := by decide
  exact ⟨_, hm, (h.2 _ hm).2.1⟩

end SaltPam
